import Mathlib

/-!
Verification of `collect_metadata.py`, a script that inventories geospatial
files in a directory and writes one CSV row of metadata per recognized file.

Shallow embedding conventions:
* Python floats are modelled as `ℚ`.  The only float arithmetic the script
  performs is division by the powers of two 1024 (exact on IEEE doubles) and
  Python's `round(x, 2)` (modelled as round-half-to-even at two decimals),
  so the rational model is faithful.
* Filesystem paths are lists of path components (`List String`); a directory
  entry produced by `os.scandir(path)` carries the scanned directory `dir`
  and the bare entry name `name`, and its true location is `dir ++ [name]`.
  Opening a bare file name resolves it against the process's current working
  directory, modelled by `resolve`.
* The external collaborators (os.stat, fiona.open, gdal.Open, directory
  enumeration, `datetime.fromtimestamp(t).ctime()` formatting and Python's
  `str()` rendering of floats) are oracle fields of an `Env` record;
  a library failure is an `Except.error`.
* `scan_directory` returns `Except String WrittenFile`: `.ok w` means the
  scan completed and the file at `w.path` was created or overwritten with
  the lines `w.lines`; `.error e` means the scan aborted with an unhandled
  exception and nothing was written.
-/

/-- Result of `os.stat` / `DirEntry.stat()`: the fields the script uses. -/
structure StatResult where
  st_size : ℚ
  st_ctime : ℚ
  st_atime : ℚ
  st_mtime : ℚ
deriving DecidableEq

/-- What `fiona.open` exposes of a vector dataset: `file.bounds` (a 4-tuple),
`file.driver`, and the CRS already passed through `fiona.crs.to_string`. -/
structure VectorInfo where
  bounds : ℚ × ℚ × ℚ × ℚ
  driver : String
  crs_string : String
deriving DecidableEq

/-- What `gdal.Open` exposes of a raster dataset: `GetProjection()`,
`GetDriver().LongName`, the six-element affine `GetGeoTransform()`
`(originX, pixelWidth, rotation, originY, rotation, pixelHeight)`,
and `RasterXSize` / `RasterYSize` (integer pixel counts, carried in `ℚ`
since the script only ever multiplies them into float arithmetic). -/
structure RasterInfo where
  projection : String
  driver_long_name : String
  geo_transform : ℚ × ℚ × ℚ × ℚ × ℚ × ℚ
  raster_x_size : ℚ
  raster_y_size : ℚ
deriving DecidableEq

/-- The dict returned by the two readers. -/
structure SpatialInfo where
  extent : List ℚ
  format : String
  spatial_reference : String
  data_type : String
deriving DecidableEq

/-- The `Metadata` dataclass. -/
structure Metadata where
  name : String
  data_type : String
  format : String
  volume_in_MB : ℚ
  spatial_reference : String
  extent : List ℚ
  creation_date : String
  update_date : String
deriving DecidableEq

/-- An `os.DirEntry`: the scanned directory and the bare entry name. -/
structure DirEntry where
  dir : List String
  name : String
deriving DecidableEq

/-- The process environment: current working directory, the script's own
directory (the default scan path), and the external collaborators. -/
structure Env where
  cwd : List String
  script_dir : List String
  ctime_of : ℚ → String
  py_float_str : ℚ → String
  stat_of : List String → Except String StatResult
  vector_open : List String → Except String VectorInfo
  raster_open : List String → Except String RasterInfo
  scandir_of : List String → List String

/-- OS resolution of a bare (relative) file name against the current working
directory: opening `"x.tif"` opens `cwd/x.tif`. -/
def resolve (cwd : List String) (name : String) : List String :=
  cwd ++ [name]

/-- Python `str.endswith`: the suffix test used by the dispatcher. -/
def endswith (s suffix : String) : Bool :=
  decide (suffix.data <:+ s.data)

/-- Round half to even to an integer (Python's `round` tie-breaking). -/
def round_half_even (q : ℚ) : ℤ :=
  let f := ⌊q⌋
  if q - f < 1/2 then f
  else if q - f > 1/2 then f + 1
  else if f % 2 = 0 then f else f + 1

/-- Python `round(q, 2)`. -/
def python_round_2 (q : ℚ) : ℚ :=
  (round_half_even (q * 100) : ℚ) / 100

/-- `vector_data_reader(sourcefile)`: opens `sourcefile.name` (the bare name,
resolved by the OS against the cwd) with fiona and marshals bounds, driver
and CRS string into the spatial-information dict. -/
def vector_data_reader (env : Env) (sourcefile : DirEntry) :
    Except String SpatialInfo :=
  match env.vector_open (resolve env.cwd sourcefile.name) with
  | .error e => .error e
  | .ok file =>
    let (a, b, c, d) := file.bounds
    .ok { extent := [a, b, c, d],
          format := file.driver,
          spatial_reference := file.crs_string,
          data_type := "vector" }

/-- `raster_data_reader(sourcefile)`: opens `sourcefile.name` (the bare name,
resolved by the OS against the cwd) with gdal.  The source unpacks
`xmin, xres, _, ymax, yres, _ = file.GetGeoTransform()`, so `yres` is bound
to the FIFTH geotransform element (the second rotation term) and the sixth
element (the actual north-south pixel size) is discarded; the embedding
mirrors that unpacking exactly. -/
def raster_data_reader (env : Env) (sourcefile : DirEntry) :
    Except String SpatialInfo :=
  match env.raster_open (resolve env.cwd sourcefile.name) with
  | .error e => .error e
  | .ok file =>
    let (xmin, xres, _, ymax, yres, _) := file.geo_transform
    let xmax := xmin + file.raster_x_size * xres
    let ymin := ymax + file.raster_y_size * yres
    .ok { extent := [xmin, ymin, xmax, ymax],
          format := file.driver_long_name,
          spatial_reference := file.projection,
          data_type := "raster" }

/-- `metadata_creator(name, non_spatial_information, spatial_information)`. -/
def metadata_creator (env : Env) (name : String)
    (non_spatial_information : StatResult)
    (spatial_information : SpatialInfo) : Metadata :=
  { name := name
    data_type := spatial_information.data_type
    format := spatial_information.format
    volume_in_MB :=
      python_round_2 ((non_spatial_information.st_size / 1024) / 1024)
    spatial_reference := spatial_information.spatial_reference
    extent := spatial_information.extent
    creation_date := env.ctime_of non_spatial_information.st_ctime
    update_date := env.ctime_of non_spatial_information.st_atime }

/-- The vector suffix test of `parse_metadata`. -/
def vector_suffix (n : String) : Bool :=
  endswith n ".gpkg" || endswith n ".shp" || endswith n ".geojson"

/-- The raster suffix test of `parse_metadata`. -/
def raster_suffix (n : String) : Bool :=
  endswith n ".tif" || endswith n ".img"

/-- `parse_metadata(sourcefile)`: stats the entry first, then dispatches on
the name's suffix; unrecognized suffixes return `None` (here `.ok none`). -/
def parse_metadata (env : Env) (sourcefile : DirEntry) :
    Except String (Option Metadata) :=
  match env.stat_of (sourcefile.dir ++ [sourcefile.name]) with
  | .error e => .error e
  | .ok non_spatial_information =>
    let name := sourcefile.name
    if vector_suffix sourcefile.name then
      match vector_data_reader env sourcefile with
      | .error e => .error e
      | .ok si => .ok (some (metadata_creator env name non_spatial_information si))
    else if raster_suffix sourcefile.name then
      match raster_data_reader env sourcefile with
      | .error e => .error e
      | .ok si => .ok (some (metadata_creator env name non_spatial_information si))
    else
      .ok none

/-- The enumeration loop of `scan_directory`: parse every entry in order,
keep the non-`None` records, abort on the first unhandled exception. -/
def collect_metadata (env : Env) (dir : List String) :
    List String → Except String (List Metadata)
  | [] => .ok []
  | n :: ns =>
    match parse_metadata env ⟨dir, n⟩ with
    | .error e => .error e
    | .ok none => collect_metadata env dir ns
    | .ok (some m) => (collect_metadata env dir ns).map (fun ms => m :: ms)

/-- The fixed CSV field names. -/
def fields_names : List String :=
  ["name", "data_type", "format", "volume_in_MB",
   "spatial_reference", "extent", "creation_date", "update_date"]

/-- Double every quote character (csv escaping inside a quoted field). -/
def esc_quotes : List Char → List Char
  | [] => []
  | c :: cs =>
    if c = '"' then '"' :: '"' :: esc_quotes cs else c :: esc_quotes cs

/-- `csv` module minimal quoting: quote a field iff it contains the
delimiter, the quote character or a line break. -/
def csv_field (s : String) : String :=
  if s.data.any (fun c => c = ',' || c = '"' || c = '\n' || c = '\r') then
    "\"" ++ String.mk (esc_quotes s.data) ++ "\""
  else s

/-- Python `str()` of the extent tuple, e.g. `(100.0, 0.0, 600.0, 500.0)`. -/
def py_tuple_str (env : Env) (xs : List ℚ) : String :=
  "(" ++ String.intercalate ", " (xs.map env.py_float_str) ++ ")"

/-- One CSV data row, fields in `fields_names` order. -/
def metadata_row (env : Env) (m : Metadata) : String :=
  String.intercalate ","
    [csv_field m.name, csv_field m.data_type, csv_field m.format,
     csv_field (env.py_float_str m.volume_in_MB),
     csv_field m.spatial_reference,
     csv_field (py_tuple_str env m.extent),
     csv_field m.creation_date, csv_field m.update_date]

/-- The CSV header row written by `DictWriter.writeheader()`. -/
def header_row : String :=
  String.intercalate "," (fields_names.map csv_field)

/-- The file written by `scan_directory` on success. -/
structure WrittenFile where
  path : List String
  lines : List String
deriving DecidableEq

/-- `scan_directory(path=None)`: default the path to the script's own
directory, enumerate, collect, then open `metadata.csv` in the current
working directory and write the header plus one row per record. -/
def scan_directory (env : Env) (path : Option (List String)) :
    Except String WrittenFile :=
  let p := path.getD env.script_dir
  match collect_metadata env p (env.scandir_of p) with
  | .error e => .error e
  | .ok metadata_store =>
    .ok { path := env.cwd ++ ["metadata.csv"],
          lines := header_row :: metadata_store.map (metadata_row env) }

/-! ## Helper instances and lemmas -/

instance {ε α : Type} [DecidableEq ε] [DecidableEq α] :
    DecidableEq (Except ε α) := fun x y =>
  match x, y with
  | .error a, .error b =>
    if h : a = b then .isTrue (by rw [h]) else .isFalse (by simp [h])
  | .ok a, .ok b =>
    if h : a = b then .isTrue (by rw [h]) else .isFalse (by simp [h])
  | .error _, .ok _ => .isFalse (by simp)
  | .ok _, .error _ => .isFalse (by simp)

/-- Two prefixes of one list are comparable. -/
lemma list_prefix_total {α : Type} :
    ∀ {l s t : List α}, s <+: l → t <+: l → s <+: t ∨ t <+: s := by
  intro l
  induction l with
  | nil =>
    intro s t hs ht
    rw [List.prefix_nil] at hs ht
    simp [hs, ht]
  | cons a l ih =>
    intro s t hs ht
    cases s with
    | nil => exact Or.inl (List.nil_prefix)
    | cons b bs =>
      cases t with
      | nil => exact Or.inr (List.nil_prefix)
      | cons c cs =>
        rw [List.cons_prefix_cons] at hs ht
        rcases hs with ⟨rfl, hs⟩
        rcases ht with ⟨rfl, ht⟩
        rcases ih hs ht with h | h
        · exact Or.inl (List.cons_prefix_cons.mpr ⟨rfl, h⟩)
        · exact Or.inr (List.cons_prefix_cons.mpr ⟨rfl, h⟩)

/-- Two suffixes of one list are comparable. -/
lemma list_suffix_total {α : Type} {l s t : List α}
    (hs : s <:+ l) (ht : t <:+ l) : s <:+ t ∨ t <:+ s := by
  rcases list_prefix_total (List.reverse_prefix.mpr hs) (List.reverse_prefix.mpr ht)
    with h | h
  · exact Or.inl (List.reverse_prefix.mp h)
  · exact Or.inr (List.reverse_prefix.mp h)

lemma endswith_iff {s t : String} : endswith s t = true ↔ t.data <:+ s.data := by
  simp [endswith]

/-- The five recognized suffixes are pairwise non-nested, so a name ending in
a raster suffix cannot also end in a vector suffix. -/
lemma vector_suffix_eq_false_of_raster {n : String}
    (h : raster_suffix n = true) : vector_suffix n = false := by
  rw [Bool.eq_false_iff]
  intro hv
  rw [raster_suffix, Bool.or_eq_true, endswith_iff, endswith_iff] at h
  rw [vector_suffix, Bool.or_eq_true, Bool.or_eq_true,
    endswith_iff, endswith_iff, endswith_iff] at hv
  rcases h with h | h <;> rcases hv with (hv | hv) | hv <;>
    rcases list_suffix_total h hv with hc | hc <;> exact absurd hc (by decide)

/-- A successful vector read always labels the dict `"vector"` and always
returns a 4-element extent. -/
lemma vector_data_reader_ok {env : Env} {e : DirEntry} {si : SpatialInfo}
    (h : vector_data_reader env e = .ok si) :
    si.data_type = "vector" ∧ si.extent.length = 4 := by
  unfold vector_data_reader at h
  cases ho : env.vector_open (resolve env.cwd e.name) with
  | error er => rw [ho] at h; cases h
  | ok file =>
    rw [ho] at h
    obtain ⟨a, b, c, d⟩ := file.bounds
    cases h
    exact ⟨rfl, rfl⟩

/-- A successful raster read always labels the dict `"raster"` and always
returns a 4-element extent. -/
lemma raster_data_reader_ok {env : Env} {e : DirEntry} {si : SpatialInfo}
    (h : raster_data_reader env e = .ok si) :
    si.data_type = "raster" ∧ si.extent.length = 4 := by
  unfold raster_data_reader at h
  cases ho : env.raster_open (resolve env.cwd e.name) with
  | error er => rw [ho] at h; cases h
  | ok file =>
    rw [ho] at h
    obtain ⟨g0, g1, g2, g3, g4, g5⟩ := file.geo_transform
    cases h
    exact ⟨rfl, rfl⟩

/-- Structure of a successful, record-producing `parse_metadata` call. -/
lemma parse_metadata_ok_some {env : Env} {e : DirEntry} {m : Metadata}
    (h : parse_metadata env e = .ok (some m)) :
    ∃ s si, env.stat_of (e.dir ++ [e.name]) = .ok s ∧
      m = metadata_creator env e.name s si ∧
      (si.data_type = "vector" ∨ si.data_type = "raster") ∧
      si.extent.length = 4 := by
  unfold parse_metadata at h
  cases hst : env.stat_of (e.dir ++ [e.name]) with
  | error er => rw [hst] at h; exact absurd h (by simp)
  | ok s =>
    rw [hst] at h
    simp only at h
    by_cases hv : vector_suffix e.name
    · simp only [hv, if_true] at h
      cases hr : vector_data_reader env e with
      | error er => rw [hr] at h; exact absurd h (by simp)
      | ok si =>
        rw [hr] at h
        simp only [Except.ok.injEq, Option.some.injEq] at h
        exact ⟨s, si, rfl, h.symm, Or.inl (vector_data_reader_ok hr).1,
          (vector_data_reader_ok hr).2⟩
    · simp only [hv, Bool.false_eq_true, if_false] at h
      by_cases hra : raster_suffix e.name
      · simp only [hra, if_true] at h
        cases hr : raster_data_reader env e with
        | error er => rw [hr] at h; exact absurd h (by simp)
        | ok si =>
          rw [hr] at h
          simp only [Except.ok.injEq, Option.some.injEq] at h
          exact ⟨s, si, rfl, h.symm, Or.inr (raster_data_reader_ok hr).1,
            (raster_data_reader_ok hr).2⟩
      · simp only [hra, Bool.false_eq_true, if_false] at h
        exact absurd h (by simp)

/-- If the stat call fails, `parse_metadata` fails with that exact error,
regardless of the entry's suffix. -/
lemma parse_metadata_stat_error {env : Env} {e : DirEntry} {er : String}
    (h : env.stat_of (e.dir ++ [e.name]) = .error er) :
    parse_metadata env e = .error er := by
  unfold parse_metadata
  rw [h]

/-- If some entry of the enumeration fails to parse, the whole collection
fold fails. -/
lemma collect_metadata_error {env : Env} {dir : List String} {n : String}
    {er : String} (ns : List String) (hn : n ∈ ns)
    (h : parse_metadata env ⟨dir, n⟩ = .error er) :
    ∃ er2, collect_metadata env dir ns = .error er2 := by
  induction ns with
  | nil => cases hn
  | cons a ns ih =>
    rcases List.mem_cons.mp hn with rfl | hn2
    · exact ⟨er, by rw [collect_metadata, h]⟩
    · cases hp : parse_metadata env ⟨dir, a⟩ with
      | error er3 => exact ⟨er3, by rw [collect_metadata, hp]⟩
      | ok om =>
        rcases ih hn2 with ⟨er2, hc⟩
        cases om with
        | none => exact ⟨er2, by rw [collect_metadata, hp, hc]⟩
        | some m => exact ⟨er2, by rw [collect_metadata, hp, hc]; rfl⟩

/-- Every record in a successful collection fold was produced by
`parse_metadata` on some enumerated entry. -/
lemma collect_metadata_mem {env : Env} {dir : List String} {m : Metadata} :
    ∀ {ns : List String} {ms : List Metadata},
      collect_metadata env dir ns = .ok ms → m ∈ ms →
      ∃ n ∈ ns, parse_metadata env ⟨dir, n⟩ = .ok (some m) := by
  intro ns
  induction ns with
  | nil =>
    intro ms h hm
    rw [collect_metadata] at h
    cases h
    cases hm
  | cons a ns ih =>
    intro ms h hm
    rw [collect_metadata] at h
    cases hp : parse_metadata env ⟨dir, a⟩ with
    | error er => rw [hp] at h; cases h
    | ok om =>
      rw [hp] at h
      cases om with
      | none =>
        rcases ih h hm with ⟨n, hn, hpn⟩
        exact ⟨n, List.mem_cons_of_mem _ hn, hpn⟩
      | some m2 =>
        cases hc : collect_metadata env dir ns with
        | error er => rw [hc] at h; cases h
        | ok ms2 =>
          rw [hc] at h
          cases h
          rcases List.mem_cons.mp hm with rfl | hm2
          · exact ⟨a, List.mem_cons_self a ns, hp⟩
          · rcases ih hc hm2 with ⟨n, hn, hpn⟩
            exact ⟨n, List.mem_cons_of_mem _ hn, hpn⟩

/-- Rounding half to even preserves non-negativity. -/
lemma round_half_even_nonneg {q : ℚ} (h : 0 ≤ q) : 0 ≤ round_half_even q := by
  have h0 : (0 : ℤ) ≤ ⌊q⌋ := Int.floor_nonneg.mpr h
  simp only [round_half_even]
  split_ifs <;> omega

/-- Python `round(q, 2)` preserves non-negativity. -/
lemma python_round_2_nonneg {q : ℚ} (h : 0 ≤ q) : 0 ≤ python_round_2 q := by
  unfold python_round_2
  have h1 : (0 : ℤ) ≤ round_half_even (q * 100) :=
    round_half_even_nonneg (by positivity)
  have h2 : (0 : ℚ) ≤ (round_half_even (q * 100) : ℚ) := by exact_mod_cast h1
  positivity

/-- Reduction of `parse_metadata` on a vector-suffixed entry whose read
succeeds. -/
lemma parse_metadata_vector {env : Env} {e : DirEntry} {s : StatResult}
    {si : SpatialInfo} (hst : env.stat_of (e.dir ++ [e.name]) = .ok s)
    (hv : vector_suffix e.name = true)
    (hr : vector_data_reader env e = .ok si) :
    parse_metadata env e = .ok (some (metadata_creator env e.name s si)) := by
  unfold parse_metadata
  rw [hst]
  simp only [hv, if_true]
  rw [hr]

/-- Reduction of `parse_metadata` on a vector-suffixed entry whose read
fails: the library error propagates. -/
lemma parse_metadata_vector_error {env : Env} {e : DirEntry} {s : StatResult}
    {er : String} (hst : env.stat_of (e.dir ++ [e.name]) = .ok s)
    (hv : vector_suffix e.name = true)
    (hr : vector_data_reader env e = .error er) :
    parse_metadata env e = .error er := by
  unfold parse_metadata
  rw [hst]
  simp only [hv, if_true]
  rw [hr]

/-- Reduction of `parse_metadata` on a raster-suffixed entry whose read
succeeds (the vector branch is skipped by suffix exclusivity). -/
lemma parse_metadata_raster {env : Env} {e : DirEntry} {s : StatResult}
    {si : SpatialInfo} (hst : env.stat_of (e.dir ++ [e.name]) = .ok s)
    (hra : raster_suffix e.name = true)
    (hr : raster_data_reader env e = .ok si) :
    parse_metadata env e = .ok (some (metadata_creator env e.name s si)) := by
  unfold parse_metadata
  rw [hst]
  simp only [vector_suffix_eq_false_of_raster hra, Bool.false_eq_true,
    if_false, hra, if_true]
  rw [hr]

/-- Reduction of `parse_metadata` on a raster-suffixed entry whose read
fails: the library error propagates. -/
lemma parse_metadata_raster_error {env : Env} {e : DirEntry} {s : StatResult}
    {er : String} (hst : env.stat_of (e.dir ++ [e.name]) = .ok s)
    (hra : raster_suffix e.name = true)
    (hr : raster_data_reader env e = .error er) :
    parse_metadata env e = .error er := by
  unfold parse_metadata
  rw [hst]
  simp only [vector_suffix_eq_false_of_raster hra, Bool.false_eq_true,
    if_false, hra, if_true]
  rw [hr]

/-- Reduction of `parse_metadata` on an unrecognized suffix: silent skip. -/
lemma parse_metadata_skip {env : Env} {e : DirEntry} {s : StatResult}
    (hst : env.stat_of (e.dir ++ [e.name]) = .ok s)
    (hv : vector_suffix e.name = false)
    (hra : raster_suffix e.name = false) :
    parse_metadata env e = .ok none := by
  unfold parse_metadata
  rw [hst]
  simp only [hv, hra, Bool.false_eq_true, if_false]

/-- `metadata_creator` reads the environment only through `ctime_of`. -/
lemma metadata_creator_congr (env1 env2 : Env)
    (hct : env1.ctime_of = env2.ctime_of) (name : String)
    (s : StatResult) (si : SpatialInfo) :
    metadata_creator env1 name s si = metadata_creator env2 name s si := by
  unfold metadata_creator
  rw [hct]

/-- `parse_metadata` depends only on the stat of the entry's true path, on
the library outputs at the cwd-resolved bare name, and on the timestamp
formatter. -/
lemma parse_metadata_congr (env1 env2 : Env) (e : DirEntry)
    (hst : env1.stat_of (e.dir ++ [e.name]) = env2.stat_of (e.dir ++ [e.name]))
    (hvo : env1.vector_open (resolve env1.cwd e.name)
         = env2.vector_open (resolve env2.cwd e.name))
    (hro : env1.raster_open (resolve env1.cwd e.name)
         = env2.raster_open (resolve env2.cwd e.name))
    (hct : env1.ctime_of = env2.ctime_of) :
    parse_metadata env1 e = parse_metadata env2 e := by
  have hv : vector_data_reader env1 e = vector_data_reader env2 e := by
    unfold vector_data_reader
    rw [hvo]
  have hr : raster_data_reader env1 e = raster_data_reader env2 e := by
    unfold raster_data_reader
    rw [hro]
  unfold parse_metadata
  rw [← hst, hv, hr]
  simp only [metadata_creator_congr env1 env2 hct]

/-- The collection fold inherits the dependency bound of `parse_metadata`. -/
lemma collect_metadata_congr (env1 env2 : Env) (p : List String)
    (hst : ∀ n, env1.stat_of (p ++ [n]) = env2.stat_of (p ++ [n]))
    (hvo : ∀ n, env1.vector_open (resolve env1.cwd n)
              = env2.vector_open (resolve env2.cwd n))
    (hro : ∀ n, env1.raster_open (resolve env1.cwd n)
              = env2.raster_open (resolve env2.cwd n))
    (hct : env1.ctime_of = env2.ctime_of) :
    ∀ ns, collect_metadata env1 p ns = collect_metadata env2 p ns := by
  intro ns
  induction ns with
  | nil => rfl
  | cons a ns ih =>
    rw [collect_metadata, collect_metadata,
      parse_metadata_congr env1 env2 ⟨p, a⟩ (hst a) (hvo a) (hro a) hct, ih]

/-- An entry that fails to parse aborts the whole scan before any write. -/
lemma scan_directory_error {env : Env} {p : List String} {n : String}
    {er : String} (hn : n ∈ env.scandir_of p)
    (h : parse_metadata env ⟨p, n⟩ = .error er) :
    ∃ er2, scan_directory env (some p) = .error er2 := by
  rcases collect_metadata_error (env.scandir_of p) hn h with ⟨er2, hc⟩
  refine ⟨er2, ?_⟩
  unfold scan_directory
  simp only [Option.getD_some]
  rw [hc]

/-! ## Concrete demonstration environments -/

/-- A stat result used by the demonstration environments. -/
def stat_demo : StatResult := ⟨0, 86400, 172800, 259200⟩

/-- A vector dataset as fiona would report it. -/
def vector_demo : VectorInfo := ⟨(0, 0, 1, 1), "GPKG", "EPSG:4326"⟩

/-- A raster dataset as gdal would report it: the spec's example
geotransform `(100, 10, 0, 500, 0, -10)` on a 50 x 50 raster. -/
def raster_demo : RasterInfo :=
  ⟨"P", "GTiff", (100, 10, 0, 500, 0, -10), 50, 50⟩

/-- An environment in which every open and stat succeeds and the scanned
directory holds one raster, one unrecognized file and one vector. -/
def env_demo : Env :=
  { cwd := ["cwd"], script_dir := ["scripts"],
    ctime_of := fun q => "ctime:" ++ toString q.num,
    py_float_str := fun q => toString q.num,
    stat_of := fun _ => .ok stat_demo,
    vector_open := fun _ => .ok vector_demo,
    raster_open := fun _ => .ok raster_demo,
    scandir_of := fun _ => ["a.tif", "b.txt", "c.gpkg"] }

/-- The spatial-information dict the vector reader produces for
`vector_demo`. -/
def si_vector_demo : SpatialInfo :=
  { extent := [0, 0, 1, 1], format := "GPKG",
    spatial_reference := "EPSG:4326", data_type := "vector" }

/-- The spatial-information dict the raster reader produces for
`raster_demo`, with the arithmetic left unevaluated as the reader builds
it (note `yres` ended up as the rotation term `0`). -/
def si_raster_demo : SpatialInfo :=
  { extent := [100, 500 + 50 * 0, 100 + 50 * 10, 500], format := "GTiff",
    spatial_reference := "P", data_type := "raster" }

/-- The records the demo scan collects, in enumeration order. -/
def ms_demo : List Metadata :=
  [metadata_creator env_demo "a.tif" stat_demo si_raster_demo,
   metadata_creator env_demo "c.gpkg" stat_demo si_vector_demo]

/-- `env_demo` with a raster library that fails to open anything and a
directory holding one raster file. -/
def env_fail : Env :=
  { env_demo with
    raster_open := fun _ => .error "gdal: cannot open",
    scandir_of := fun _ => ["bad.tif"] }

/-- `env_demo` with a failing stat call and a directory holding one file
of unrecognized suffix. -/
def env_statfail : Env :=
  { env_demo with
    stat_of := fun _ => .error "stat: ENOENT",
    scandir_of := fun _ => ["ghost.txt"] }

/-! ## Claims -/

/-- C1: the claim states the raster extent is
`(xmin, ymax + rasterHeight * yRes, xmin + rasterWidth * xRes, ymax)` with
`yRes` the geotransform's SIXTH element, and that geotransform
`(100, 10, 0, 500, 0, -10)` on a 50 x 50 raster yields `(100, 0, 600, 500)`.
The source instead unpacks the FIFTH element (the rotation term, here `0`)
into `yres`, so on exactly that input the produced record's extent is
`(100, 500, 600, 500)`, not `(100, 0, 600, 500)`: the code contradicts the
spec's example and its own variable naming. -/
theorem c1_raster_extent_uses_rotation_term :
    (parse_metadata env_demo ⟨["d"], "a.tif"⟩).map (Option.map Metadata.extent)
      = .ok (some [100, 500, 600, 500]) ∧
    (parse_metadata env_demo ⟨["d"], "a.tif"⟩).map (Option.map Metadata.extent)
      ≠ .ok (some [100, 0, 600, 500]) := by
  have hp : parse_metadata env_demo ⟨["d"], "a.tif"⟩
      = .ok (some (metadata_creator env_demo "a.tif" stat_demo si_raster_demo)) :=
    rfl
  rw [hp]
  constructor
  · norm_num [Except.map, metadata_creator, si_raster_demo]
  · norm_num [Except.map, metadata_creator, si_raster_demo]

/-- C2: both readers open the file by its bare directory-entry name,
resolved by the OS against the process's current working directory: their
result depends only on the library's answer at `resolve cwd name`, and
whenever the scanned directory differs from the cwd, that opened location
differs from the entry's true location `dir ++ [name]`. -/
theorem c2_readers_open_bare_name_against_cwd (env1 env2 : Env) (e : DirEntry)
    (hvo : env1.vector_open (resolve env1.cwd e.name)
         = env2.vector_open (resolve env2.cwd e.name))
    (hro : env1.raster_open (resolve env1.cwd e.name)
         = env2.raster_open (resolve env2.cwd e.name))
    (hd : e.dir ≠ env1.cwd) :
    vector_data_reader env1 e = vector_data_reader env2 e ∧
    raster_data_reader env1 e = raster_data_reader env2 e ∧
    resolve env1.cwd e.name ≠ e.dir ++ [e.name] := by
  refine ⟨?_, ?_, ?_⟩
  · unfold vector_data_reader
    rw [hvo]
  · unfold raster_data_reader
    rw [hro]
  · intro hcontra
    simp only [resolve] at hcontra
    exact hd (List.append_cancel_right hcontra).symm

/-- Witness for C2 at a concrete entry of a scanned directory `["data"]`
different from the cwd `["cwd"]`. -/
theorem c2_readers_open_bare_name_against_cwd_witness :
    ((["data"] : List String) ≠ env_demo.cwd) ∧
    (vector_data_reader env_demo ⟨["data"], "x.shp"⟩
       = vector_data_reader env_demo ⟨["data"], "x.shp"⟩ ∧
     raster_data_reader env_demo ⟨["data"], "x.shp"⟩
       = raster_data_reader env_demo ⟨["data"], "x.shp"⟩ ∧
     resolve env_demo.cwd "x.shp" ≠ ["data"] ++ ["x.shp"]) :=
  ⟨by decide,
   c2_readers_open_bare_name_against_cwd env_demo env_demo ⟨["data"], "x.shp"⟩
     rfl rfl (by decide)⟩

/-- C3: with the entry's stat succeeding, a vector-suffixed name whose read
succeeds yields a record with `data_type = "vector"`; a raster-suffixed
name whose read succeeds yields a record with `data_type = "raster"`; and
any other suffix yields no record and no error (silent skip). -/
theorem c3_suffix_dispatch (env : Env) (e : DirEntry) (s : StatResult)
    (hst : env.stat_of (e.dir ++ [e.name]) = .ok s) :
    (∀ si, vector_suffix e.name = true → vector_data_reader env e = .ok si →
      ∃ m, parse_metadata env e = .ok (some m) ∧ m.data_type = "vector") ∧
    (∀ si, raster_suffix e.name = true → raster_data_reader env e = .ok si →
      ∃ m, parse_metadata env e = .ok (some m) ∧ m.data_type = "raster") ∧
    (vector_suffix e.name = false → raster_suffix e.name = false →
      parse_metadata env e = .ok none) := by
  refine ⟨?_, ?_, ?_⟩
  · intro si hv hr
    exact ⟨metadata_creator env e.name s si, parse_metadata_vector hst hv hr,
      (vector_data_reader_ok hr).1⟩
  · intro si hra hr
    exact ⟨metadata_creator env e.name s si, parse_metadata_raster hst hra hr,
      (raster_data_reader_ok hr).1⟩
  · intro hv hra
    exact parse_metadata_skip hst hv hra

/-- Witness for C3 at three concrete entries: a `.gpkg`, a `.tif` and a
`.txt` file. -/
theorem c3_suffix_dispatch_witness :
    (env_demo.stat_of (["d"] ++ ["c.gpkg"]) = .ok stat_demo ∧
     vector_suffix "c.gpkg" = true ∧
     (∃ m, parse_metadata env_demo ⟨["d"], "c.gpkg"⟩ = .ok (some m) ∧
        m.data_type = "vector")) ∧
    (raster_suffix "a.tif" = true ∧
     (∃ m, parse_metadata env_demo ⟨["d"], "a.tif"⟩ = .ok (some m) ∧
        m.data_type = "raster")) ∧
    (vector_suffix "b.txt" = false ∧ raster_suffix "b.txt" = false ∧
     parse_metadata env_demo ⟨["d"], "b.txt"⟩ = .ok none) :=
  ⟨⟨rfl, by decide,
     (c3_suffix_dispatch env_demo ⟨["d"], "c.gpkg"⟩ stat_demo rfl).1
       si_vector_demo (by decide) rfl⟩,
   ⟨by decide,
     (c3_suffix_dispatch env_demo ⟨["d"], "a.tif"⟩ stat_demo rfl).2.1
       si_raster_demo (by decide) rfl⟩,
   ⟨by decide, by decide,
     (c3_suffix_dispatch env_demo ⟨["d"], "b.txt"⟩ stat_demo rfl).2.2
       (by decide) (by decide)⟩⟩

/-- C4: for every stat result, the record's `volume_in_MB` — computed by
the source as `round((st_size / 1024) / 1024, 2)` — equals
`round(st_size / 1048576, 2)` exactly. -/
theorem c4_volume_formula (env : Env) (name : String) (s : StatResult)
    (si : SpatialInfo) :
    (metadata_creator env name s si).volume_in_MB
      = python_round_2 (s.st_size / 1048576) := by
  show python_round_2 ((s.st_size / 1024) / 1024)
      = python_round_2 (s.st_size / 1048576)
  rw [div_div]
  norm_num

/-- C5: if the external library fails to read a recognized-suffix entry of
the enumeration, the error propagates uncaught and the whole scan aborts
with an error — in the model, `scan_directory` returns `.error`, which
means `metadata.csv` is never opened or written (the writer phase only
runs after the enumeration completes with `.ok`). -/
theorem c5_library_failure_aborts_scan (env : Env) (p : List String)
    (n : String) (hn : n ∈ env.scandir_of p)
    (hfail :
      (vector_suffix n = true ∧
        ∃ er, env.vector_open (resolve env.cwd n) = .error er) ∨
      (raster_suffix n = true ∧
        ∃ er, env.raster_open (resolve env.cwd n) = .error er)) :
    ∃ er, scan_directory env (some p) = .error er := by
  have hparse : ∃ er, parse_metadata env ⟨p, n⟩ = .error er := by
    cases hst : env.stat_of (p ++ [n]) with
    | error er => exact ⟨er, parse_metadata_stat_error hst⟩
    | ok s =>
      rcases hfail with ⟨hv, er, ho⟩ | ⟨hra, er, ho⟩
      · refine ⟨er, parse_metadata_vector_error hst hv ?_⟩
        unfold vector_data_reader
        rw [ho]
      · refine ⟨er, parse_metadata_raster_error hst hra ?_⟩
        unfold raster_data_reader
        rw [ho]
  rcases hparse with ⟨er, hp⟩
  exact scan_directory_error hn hp

/-- Witness for C5: a directory holding one `.tif` that gdal cannot open. -/
theorem c5_library_failure_aborts_scan_witness :
    ("bad.tif" ∈ env_fail.scandir_of ["d"]) ∧
    (raster_suffix "bad.tif" = true ∧
     env_fail.raster_open (resolve env_fail.cwd "bad.tif")
       = .error "gdal: cannot open") ∧
    (∃ er, scan_directory env_fail (some ["d"]) = .error er) :=
  ⟨by decide, ⟨by decide, rfl⟩,
   c5_library_failure_aborts_scan env_fail ["d"] "bad.tif" (by decide)
     (Or.inr ⟨by decide, ⟨"gdal: cannot open", rfl⟩⟩)⟩

/-- C6: `creation_date` is the formatted `st_ctime` and `update_date` is
the formatted `st_atime`; `update_date` does not read the modification
timestamp — two stats sharing an access time but differing elsewhere
(including `st_mtime`) produce the same `update_date`. -/
theorem c6_dates_from_ctime_and_atime (env : Env) (name : String)
    (si : SpatialInfo) (s t : StatResult) (h : s.st_atime = t.st_atime) :
    (metadata_creator env name s si).creation_date
      = env.ctime_of s.st_ctime ∧
    (metadata_creator env name s si).update_date
      = env.ctime_of s.st_atime ∧
    (metadata_creator env name s si).update_date
      = (metadata_creator env name t si).update_date := by
  refine ⟨rfl, rfl, ?_⟩
  show env.ctime_of s.st_atime = env.ctime_of t.st_atime
  rw [h]

/-- Witness for C6 at two concrete stats with equal access time `2` and
different modification times `3` and `9`. -/
theorem c6_dates_from_ctime_and_atime_witness :
    ((⟨0, 1, 2, 3⟩ : StatResult).st_atime
      = (⟨7, 8, 2, 9⟩ : StatResult).st_atime) ∧
    ((metadata_creator env_demo "f.shp" ⟨0, 1, 2, 3⟩ si_vector_demo).creation_date
       = env_demo.ctime_of (⟨0, 1, 2, 3⟩ : StatResult).st_ctime ∧
     (metadata_creator env_demo "f.shp" ⟨0, 1, 2, 3⟩ si_vector_demo).update_date
       = env_demo.ctime_of (⟨0, 1, 2, 3⟩ : StatResult).st_atime ∧
     (metadata_creator env_demo "f.shp" ⟨0, 1, 2, 3⟩ si_vector_demo).update_date
       = (metadata_creator env_demo "f.shp" ⟨7, 8, 2, 9⟩ si_vector_demo).update_date) :=
  ⟨rfl,
   c6_dates_from_ctime_and_atime env_demo "f.shp" si_vector_demo
     ⟨0, 1, 2, 3⟩ ⟨7, 8, 2, 9⟩ rfl⟩

/-- C7: when the enumeration completes, `scan_directory` writes the file
`metadata.csv` in the process's current working directory (the model's
`.ok` replaces any existing file at that path), whose content is exactly
the fixed 8-column header line followed by one row per collected record in
enumeration order; with zero records (`ms = []`) the header-only file is
still written. -/
theorem c7_csv_write (env : Env) (p : List String) (ms : List Metadata)
    (h : collect_metadata env p (env.scandir_of p) = .ok ms) :
    scan_directory env (some p) =
      .ok { path := env.cwd ++ ["metadata.csv"],
            lines :=
              "name,data_type,format,volume_in_MB,spatial_reference,extent,creation_date,update_date"
                :: ms.map (metadata_row env) } := by
  have hh : header_row
      = "name,data_type,format,volume_in_MB,spatial_reference,extent,creation_date,update_date" :=
    rfl
  unfold scan_directory
  simp only [Option.getD_some]
  rw [h, hh]

/-- Witness for C7: the demo scan writes the header plus the two collected
records, in enumeration order, to `cwd/metadata.csv`. -/
theorem c7_csv_write_witness :
    (collect_metadata env_demo ["d"] (env_demo.scandir_of ["d"])
       = .ok ms_demo) ∧
    scan_directory env_demo (some ["d"]) =
      .ok { path := env_demo.cwd ++ ["metadata.csv"],
            lines :=
              "name,data_type,format,volume_in_MB,spatial_reference,extent,creation_date,update_date"
                :: ms_demo.map (metadata_row env_demo) } :=
  ⟨rfl, c7_csv_write env_demo ["d"] ms_demo rfl⟩

/-- C8: every record a scan collects has `data_type` equal to `"vector"`
or `"raster"`, an extent of exactly 4 elements, and — provided the
filesystem reports non-negative sizes — a non-negative `volume_in_MB`. -/
theorem c8_record_invariants (env : Env) (p : List String)
    (ms : List Metadata) (m : Metadata)
    (hsz : ∀ q s, env.stat_of q = .ok s → 0 ≤ s.st_size)
    (h : collect_metadata env p (env.scandir_of p) = .ok ms)
    (hm : m ∈ ms) :
    (m.data_type = "vector" ∨ m.data_type = "raster") ∧
    m.extent.length = 4 ∧ 0 ≤ m.volume_in_MB := by
  rcases collect_metadata_mem h hm with ⟨n, hn, hp⟩
  rcases parse_metadata_ok_some hp with ⟨s, si, hst, rfl, hdt, hlen⟩
  refine ⟨hdt, hlen, ?_⟩
  have h0 : 0 ≤ s.st_size := hsz _ _ hst
  show 0 ≤ python_round_2 ((s.st_size / 1024) / 1024)
  exact python_round_2_nonneg (by positivity)

/-- Witness for C8 at the first record of the demo scan. -/
theorem c8_record_invariants_witness :
    (∀ q s, env_demo.stat_of q = .ok s → 0 ≤ s.st_size) ∧
    (collect_metadata env_demo ["d"] (env_demo.scandir_of ["d"])
       = .ok ms_demo) ∧
    (((metadata_creator env_demo "a.tif" stat_demo si_raster_demo).data_type
        = "vector" ∨
      (metadata_creator env_demo "a.tif" stat_demo si_raster_demo).data_type
        = "raster") ∧
     (metadata_creator env_demo "a.tif" stat_demo si_raster_demo).extent.length
        = 4 ∧
     0 ≤ (metadata_creator env_demo "a.tif" stat_demo si_raster_demo).volume_in_MB) :=
  ⟨by simp [env_demo, stat_demo], rfl,
   c8_record_invariants env_demo ["d"] ms_demo
     (metadata_creator env_demo "a.tif" stat_demo si_raster_demo)
     (by simp [env_demo, stat_demo]) rfl (by simp [ms_demo])⟩

/-- C9: the scan is a deterministic function of the enumeration, the stats
of the enumerated paths, the library's outputs at the cwd-resolved names,
and the two string renderers: two runs that agree on those inputs produce
identical CSV content. -/
theorem c9_scan_deterministic (env1 env2 : Env) (p : List String)
    (hls : env1.scandir_of p = env2.scandir_of p)
    (hst : ∀ n, env1.stat_of (p ++ [n]) = env2.stat_of (p ++ [n]))
    (hvo : ∀ n, env1.vector_open (resolve env1.cwd n)
              = env2.vector_open (resolve env2.cwd n))
    (hro : ∀ n, env1.raster_open (resolve env1.cwd n)
              = env2.raster_open (resolve env2.cwd n))
    (hct : env1.ctime_of = env2.ctime_of)
    (hpf : env1.py_float_str = env2.py_float_str) :
    (scan_directory env1 (some p)).map WrittenFile.lines
      = (scan_directory env2 (some p)).map WrittenFile.lines := by
  have hc : collect_metadata env1 p (env1.scandir_of p)
      = collect_metadata env2 p (env2.scandir_of p) := by
    rw [hls]
    exact collect_metadata_congr env1 env2 p hst hvo hro hct _
  have hrow : metadata_row env1 = metadata_row env2 := by
    funext m
    unfold metadata_row py_tuple_str
    rw [hpf]
  unfold scan_directory
  simp only [Option.getD_some]
  rw [hc, hrow]
  cases collect_metadata env2 p (env2.scandir_of p) <;> rfl

/-- Witness for C9: two identical runs of the demo environment. -/
theorem c9_scan_deterministic_witness :
    (env_demo.scandir_of ["d"] = env_demo.scandir_of ["d"]) ∧
    (scan_directory env_demo (some ["d"])).map WrittenFile.lines
      = (scan_directory env_demo (some ["d"])).map WrittenFile.lines :=
  ⟨rfl,
   c9_scan_deterministic env_demo env_demo ["d"] rfl (fun _ => rfl)
     (fun _ => rfl) (fun _ => rfl) rfl rfl⟩

/-- C10: `parse_metadata` stats the entry before inspecting its suffix, so
a stat failure propagates that exact error for every entry — including an
unrecognized-suffix entry that would otherwise be silently skipped — and
aborts the enclosing scan. -/
theorem c10_stat_failure_aborts (env : Env) (e : DirEntry) (er : String)
    (h : env.stat_of (e.dir ++ [e.name]) = .error er) :
    parse_metadata env e = .error er ∧
    (e.name ∈ env.scandir_of e.dir →
      ∃ er2, scan_directory env (some e.dir) = .error er2) := by
  refine ⟨parse_metadata_stat_error h, fun hn => ?_⟩
  exact scan_directory_error hn (parse_metadata_stat_error h)

/-- Witness for C10: a `.txt` entry (unrecognized suffix) whose stat
fails still aborts the scan. -/
theorem c10_stat_failure_aborts_witness :
    (env_statfail.stat_of (["d"] ++ ["ghost.txt"]) = .error "stat: ENOENT") ∧
    (vector_suffix "ghost.txt" = false ∧ raster_suffix "ghost.txt" = false) ∧
    (parse_metadata env_statfail ⟨["d"], "ghost.txt"⟩ = .error "stat: ENOENT" ∧
     ("ghost.txt" ∈ env_statfail.scandir_of ["d"] →
       ∃ er2, scan_directory env_statfail (some ["d"]) = .error er2)) :=
  ⟨rfl, ⟨by decide, by decide⟩,
   c10_stat_failure_aborts env_statfail ⟨["d"], "ghost.txt"⟩ "stat: ENOENT" rfl⟩
